import Mathlib

/-!
Shallow embedding of the USA Hockey registration dashboard
(`src/streamlit_app.py`): the data loader `get_registration_data`
(pd.read_csv with thousands separators followed by `pd.to_numeric` on the
`Year` and `Total` columns), the filter `filtered_df`, and the per-state
growth-metric loop built on `first_year` / `last_year` and `.iat[0]`
lookups.  Numeric cells are modelled as rationals, with `Option` encoding
the pandas `NaN` sentinel, and operations that can raise a Python
exception (`ValueError` from `pd.to_numeric`, `IndexError` from
`.iat[0]`) return `Except String`.
-/

namespace USTemps

/-- A raw CSV cell as it appears in the source file: either some text or an
empty field (which pandas reads as `NaN`). -/
inductive RawCell where
  | text (s : String)
  | empty
deriving DecidableEq, Repr

/-- A cell value once pandas has read it: a parsed number, the `NaN`
sentinel, or a string the numeric parse left alone. -/
inductive Value where
  | num (q : ℚ)
  | nan
  | str (s : String)
deriving DecidableEq, Repr

/-- Value of a digit string read in base 10. -/
def digitsToNat (l : List Char) : Nat :=
  l.foldl (fun a c => 10 * a + (c.toNat - 48)) 0

/-- A nonempty all-digit character list. -/
def isDigits (l : List Char) : Bool :=
  !l.isEmpty && l.all Char.isDigit

/-- Parse an unsigned decimal numeral, with an optional fractional part,
into a rational.  This mirrors the shape of the numeric fields of the
registration CSV (integer counts, possibly with a decimal point after
cleaning); anything else fails. -/
def parseNumericCore (cs : List Char) : Option ℚ :=
  let ip := cs.takeWhile (fun c => c ≠ '.')
  match cs.dropWhile (fun c => c ≠ '.') with
  | [] => if isDigits ip then some (digitsToNat ip : ℚ) else none
  | _ :: fp =>
    if isDigits ip && isDigits fp then
      some ((digitsToNat ip : ℚ) + (digitsToNat fp : ℚ) / ((10 : ℚ) ^ fp.length))
    else none

/-- Parse a signed decimal numeral into a rational, or fail. -/
def parseNumeric (s : String) : Option ℚ :=
  match s.toList with
  | '-' :: t => (parseNumericCore t).map Neg.neg
  | cs => parseNumericCore cs

/-- One cell as read by `pd.read_csv(DATA_FILENAME, thousands=',')`: an
empty field becomes `NaN`; a field that parses numerically once the
thousands separators (commas) are removed becomes that number; any other
field is kept as its original text. -/
def readCell : RawCell → Value
  | .empty => .nan
  | .text s =>
    match parseNumeric (String.mk (s.toList.filter (fun c => c ≠ ','))) with
    | some q => .num q
    | none => .str s

/-- `df['Year'].replace(',', '')`: pandas `Series.replace` with two scalar
arguments replaces cells whose entire value equals `","` by `""`; it is
not a substring replacement. -/
def replaceComma : Value → Value
  | .str s => if s = "," then .str "" else .str s
  | v => v

/-- `pd.to_numeric` with its default `errors='raise'` behaviour, applied
to one cell: numbers and `NaN` pass through; a string must parse as a
plain numeral (no thousands handling here) or the call raises
`ValueError`. -/
def toNumericCell : Value → Except String Value
  | .num q => .ok (.num q)
  | .nan => .ok .nan
  | .str s =>
    match parseNumeric s with
    | some q => .ok (.num q)
    | none => .error "ValueError"

/-- A raw long-form CSV row: `State,Year,Total`.  The `State` column is
never put through a numeric parse by the script, so it is kept as plain
text. -/
structure RawRow where
  State : String
  Year : RawCell
  Total : RawCell
deriving DecidableEq, Repr

/-- One row of the loaded table `df`: `state` as read, and the `Year` and
`Total` cells after `pd.to_numeric`, where `none` models the `NaN`
sentinel. -/
structure RegRecord where
  state : String
  year : Option ℚ
  total : Option ℚ
deriving DecidableEq, Repr

/-- The numeric value of a cell that survived `pd.to_numeric`: a number,
or `none` for `NaN`. -/
def valueToOpt : Value → Option ℚ
  | .num q => some q
  | _ => none

/-- Load one row: `Year` goes through `replace(',', '')` then
`pd.to_numeric`; `Total` goes through `pd.to_numeric`; either raising
`ValueError` aborts the load. -/
def loadRow (row : RawRow) : Except String RegRecord := do
  let y ← toNumericCell (replaceComma (readCell row.Year))
  let t ← toNumericCell (readCell row.Total)
  .ok ⟨row.State, valueToOpt y, valueToOpt t⟩

/-- `get_registration_data`: read the CSV with `thousands=','`, then run
`pd.to_numeric` over the `Year` and `Total` columns.  A `ValueError` from
any cell makes the whole load fail; no deduplication or other reshaping
is performed, so the rows come out one-for-one in source order. -/
def get_registration_data (rows : List RawRow) : Except String (List RegRecord) :=
  rows.mapM loadRow

/-- The UI selection: the inclusive `[from_year, to_year]` slider range
and the multiselect's list of states. -/
structure FilterSelection where
  fromYear : ℚ
  toYear : ℚ
  states : List String
deriving Repr

/-- `df['Year'] <= bound` on one cell: a `NaN` year compares false. -/
def yearLe (y : Option ℚ) (b : ℚ) : Bool :=
  match y with
  | some y => y ≤ b
  | none => false

/-- `bound <= df['Year']` on one cell: a `NaN` year compares false. -/
def leYear (b : ℚ) (y : Option ℚ) : Bool :=
  match y with
  | some y => b ≤ y
  | none => false

/-- `df['Year'] == bound` on one cell: `NaN` is equal to nothing. -/
def yearEq (y : Option ℚ) (b : ℚ) : Bool :=
  match y with
  | some y => y == b
  | none => false

/-- `filtered_df = df[(df['State'].isin(selected_states)) &
(df['Year'] <= to_year) & (from_year <= df['Year'])]`. -/
def filtered_df (df : List RegRecord) (sel : FilterSelection) : List RegRecord :=
  df.filter (fun r =>
    sel.states.contains r.state && yearLe r.year sel.toYear && leYear sel.fromYear r.year)

/-- `first_year = df[df['Year'] == from_year]`. -/
def first_year (df : List RegRecord) (fromYear : ℚ) : List RegRecord :=
  df.filter (fun r => yearEq r.year fromYear)

/-- `last_year = df[df['Year'] == to_year]`. -/
def last_year (df : List RegRecord) (toYear : ℚ) : List RegRecord :=
  df.filter (fun r => yearEq r.year toYear)

/-- `sub[df['State'] == state]['Total'].iat[0]`: the boolean mask built
from the full frame is aligned down to the subframe's index, so this
selects the subframe rows whose `State` matches, and `.iat[0]` takes the
first one — raising `IndexError` when there is none. -/
def regLookup (sub : List RegRecord) (state : String) : Except String (Option ℚ) :=
  match (sub.filter (fun r => r.state == state)).head? with
  | some r => .ok r.total
  | none => .error "IndexError"

/-- The displayed growth delta.  The script formats the float ratio with
an f-string, so a `NaN` ratio is displayed as `nanx` and an infinite one
as `infx` / `-infx`; only a `NaN` `first_reg` produces the `n/a` text. -/
inductive Growth where
  | na
  | ratio (q : ℚ)
  | posInf
  | negInf
  | nanDisplay
deriving DecidableEq, Repr

/-- `last_reg / first_reg` on the numpy scalars `.iat` returns: true
division, following IEEE — a nonzero value over zero is a signed
infinity, zero over zero is `NaN`, and otherwise the exact quotient. -/
def npDiv (a b : ℚ) : Growth :=
  if b = 0 then
    if a = 0 then .nanDisplay
    else if 0 < a then .posInf
    else .negInf
  else .ratio (a / b)

/-- The body of the metric loop after both lookups: `math.isnan(first_reg)`
yields `'n/a'`; otherwise the formatted quotient `last_reg / first_reg`
(a `NaN` `last_reg` makes that quotient `NaN`). -/
def growthOf (firstReg lastReg : Option ℚ) : Growth :=
  match firstReg with
  | none => .na
  | some f =>
    match lastReg with
    | none => .nanDisplay
    | some l => npDiv l f

/-- One iteration of the metric loop for a selected `state`: look
`first_reg` up in `first_year`, then `last_reg` in `last_year` (either
`.iat[0]` can raise `IndexError`), then compute the growth text. -/
def stateMetric (df : List RegRecord) (fromYear toYear : ℚ) (state : String) :
    Except String Growth := do
  let firstReg ← regLookup (first_year df fromYear) state
  let lastReg ← regLookup (last_year df toYear) state
  .ok (growthOf firstReg lastReg)

/-- The whole metric loop `for i, state in enumerate(selected_states)`:
one metric per selected state, in selection order; a Python exception in
any iteration aborts the script, which the `Except` bind models. -/
def metricLoop (df : List RegRecord) (sel : FilterSelection) :
    Except String (List (String × Growth)) :=
  sel.states.mapM (fun s => (stateMetric df sel.fromYear sel.toYear s).map (fun g => (s, g)))

/-- The filtering-and-metrics part of the script as one function: it
returns the frame the script ends with (the same binding `df`, which no
statement assigns to), the filtered frame handed to the line chart, and
the metric loop's outcome. -/
def runEngine (df : List RegRecord) (sel : FilterSelection) :
    List RegRecord × List RegRecord × Except String (List (String × Growth)) :=
  (df, filtered_df df sel, metricLoop df sel)

/-- `last_year` is the same frame expression as `first_year`, applied to
`to_year` instead of `from_year`. -/
theorem last_year_eq_first_year (df : List RegRecord) (y : ℚ) :
    last_year df y = first_year df y := rfl

/-- A record matches the `(year, state)` lookup of the metric loop. -/
def matchesAt (y : ℚ) (s : String) (r : RegRecord) : Bool :=
  r.state == s && yearEq r.year y

/-- The head of a filtered list is the first element satisfying the
predicate: everything before it fails the predicate. -/
theorem head_filter_of_split {α : Type} (p : α → Bool) (l1 l2 : List α) (r : α)
    (hn : ∀ x ∈ l1, p x = false) (hr : p r = true) :
    ((l1 ++ r :: l2).filter p).head? = some r := by
  induction l1 with
  | nil => simp [List.filter_cons, hr]
  | cons a t ih =>
    have ha : p a = false := hn a (by simp)
    simpa [List.filter_cons, ha] using ih (fun x hx => hn x (by simp [hx]))

/-- The `.iat[0]` lookup resolves to the first record of the table (in
table order) that matches the year slice and the state mask. -/
theorem regLookup_first (df : List RegRecord) (y : ℚ) (s : String)
    (l1 l2 : List RegRecord) (r : RegRecord)
    (hsplit : df = l1 ++ r :: l2) (hn : ∀ x ∈ l1, matchesAt y s x = false)
    (hr : matchesAt y s r = true) :
    regLookup (first_year df y) s = .ok r.total := by
  rw [regLookup, first_year, List.filter_filter, hsplit]
  rw [show ((l1 ++ r :: l2).filter fun a =>
        a.state == s && yearEq a.year y).head? = some r from
      head_filter_of_split _ l1 l2 r hn hr]

section Examples

/-- A small loaded table: `MA` has 1000 registrations in 2020 and 2500 in
2024; no other state appears. -/
def exampleDf : List RegRecord :=
  [⟨"MA", some 2020, some 1000⟩, ⟨"MA", some 2024, some 2500⟩]

/-- A table where the base year's total for `MA` is zero. -/
def zeroBaseDf : List RegRecord :=
  [⟨"MA", some 2020, some 0⟩, ⟨"MA", some 2024, some 2500⟩]

/-- A table where the final year's total for `MA` is the `NaN` sentinel
(an empty `Total` cell in the CSV). -/
def nanLastDf : List RegRecord :=
  [⟨"MA", some 2020, some 1000⟩, ⟨"MA", some 2024, none⟩]

/-- A raw source holding the same `(State, Year)` pair twice. -/
def dupRows : List RawRow :=
  [⟨"MA", .text "2020", .text "1000"⟩, ⟨"MA", .text "2020", .text "999"⟩]

/-- A one-row table for the degenerate year range. -/
def c5Df : List RegRecord := [⟨"MA", some 2020, some 1000⟩]

/-- A loaded table with duplicate `(state, year)` pairs at both ends of
the range. -/
def dupDf : List RegRecord :=
  [⟨"MA", some 2020, some 1000⟩, ⟨"MA", some 2020, some 999⟩,
   ⟨"MA", some 2024, some 2500⟩, ⟨"MA", some 2024, some 2600⟩]

end Examples

/-- C1: the claim says a selected state with no record at `from_year` or
`to_year` gets a `'n/a'` growth metric and no exception.  The code
instead raises: with `NJ` selected over a table that has only `MA` rows
(loaded from a well-formed CSV), the `first_year[...]['Total'].iat[0]`
lookup is over an empty selection and raises `IndexError`, which aborts
the script. -/
theorem c1_missing_state_raises :
    get_registration_data
        [⟨"MA", .text "2020", .text "1000"⟩, ⟨"MA", .text "2024", .text "2500"⟩] =
      .ok exampleDf ∧
    stateMetric exampleDf 2020 2024 "NJ" = .error "IndexError" :=
  ⟨rfl, rfl⟩

/-- C2: the claim says a zero or missing base yields `'n/a'` and the
engine never divides by zero nor displays a `NaN`.  The code only guards
`math.isnan(first_reg)`: with a zero base it computes `2500 / 0`, the
numpy infinity, displayed as `infx`; with a `NaN` `last_reg` (and a fine
base) it computes `NaN / 1000 = NaN`, displayed as `nanx`. -/
theorem c2_zero_base_or_nan_latest_displayed :
    stateMetric zeroBaseDf 2020 2024 "MA" = .ok .posInf ∧
    stateMetric nanLastDf 2020 2024 "MA" = .ok .nanDisplay :=
  ⟨rfl, rfl⟩

/-- Membership in the filtered frame, characterised: in the table, state
selected, and the year an actual (non-`NaN`) value inside the inclusive
range. -/
theorem mem_filtered_df (df : List RegRecord) (sel : FilterSelection) (r : RegRecord) :
    r ∈ filtered_df df sel ↔
      r ∈ df ∧ r.state ∈ sel.states ∧
        ∃ q : ℚ, r.year = some q ∧ sel.fromYear ≤ q ∧ q ≤ sel.toYear := by
  rw [filtered_df, List.mem_filter]
  constructor
  · rintro ⟨hmem, hp⟩
    simp only [Bool.and_eq_true] at hp
    obtain ⟨⟨hc, hle⟩, hge⟩ := hp
    refine ⟨hmem, by simpa using hc, ?_⟩
    cases hy : r.year with
    | none => rw [hy] at hle; exact absurd hle (by simp [yearLe])
    | some q =>
      rw [hy] at hle hge
      exact ⟨q, rfl, by simpa [leYear] using hge, by simpa [yearLe] using hle⟩
  · rintro ⟨hmem, hs, q, hy, h1, h2⟩
    exact ⟨hmem, by simp [hy, yearLe, leYear, h1, h2, hs]⟩

/-- C3: a record is in `filtered_df` iff it is in the loaded table, its
state is in the selection's state list, and its year is an actual
(non-`NaN`) value lying in the inclusive `[from_year, to_year]` range. -/
theorem c3_filtered_iff (df : List RegRecord) (sel : FilterSelection) (r : RegRecord) :
    r ∈ filtered_df df sel ↔
      r ∈ df ∧ r.state ∈ sel.states ∧
        ∃ q : ℚ, r.year = some q ∧ sel.fromYear ≤ q ∧ q ≤ sel.toYear :=
  mem_filtered_df df sel r

/-- C4, counterexample: the claim says a cell that fails numeric parsing
is marked missing and is "never a fatal load error"; but `pd.to_numeric`
is called with its default `errors='raise'`, so a `Total` cell of
`"abc"` raises `ValueError` and the load fails. -/
theorem c4_malformed_cell_is_fatal :
    get_registration_data [⟨"MA", .text "2020", .text "abc"⟩] = .error "ValueError" :=
  rfl

/-- C4, amended: a thousands-separated cell `"12,345"` does parse to the
integer `12345` (and is never coerced to zero), but a cell that fails
numeric parsing aborts the whole load with `ValueError` instead of being
marked missing; an empty cell, by contrast, loads as the missing
sentinel. -/
theorem c4_amended_thousands_parse :
    readCell (.text "12,345") = .num 12345 ∧
    get_registration_data [⟨"MA", .text "2020", .text "12,345"⟩] =
      .ok [⟨"MA", some 2020, some 12345⟩] ∧
    get_registration_data [⟨"MA", .text "2020", .empty⟩] =
      .ok [⟨"MA", some 2020, none⟩] ∧
    get_registration_data [⟨"MA", .text "2020", .text "abc"⟩] = .error "ValueError" :=
  ⟨rfl, rfl, rfl, rfl⟩

/-- C5: with `from_year = to_year`, every record of the filtered table
sits at that single year, and for every state whose (shared) lookup
succeeds with a non-zero, non-`NaN` base total the growth ratio is
exactly 1. -/
theorem c5_degenerate_range (df : List RegRecord) (sel : FilterSelection)
    (h : sel.fromYear = sel.toYear) :
    (∀ r ∈ filtered_df df sel, r.year = some sel.fromYear) ∧
    (∀ (s : String) (f : ℚ),
      regLookup (first_year df sel.fromYear) s = .ok (some f) → f ≠ 0 →
      stateMetric df sel.fromYear sel.toYear s = .ok (.ratio 1)) := by
  constructor
  · intro r hr
    obtain ⟨-, -, q, hy, h1, h2⟩ := (mem_filtered_df df sel r).mp hr
    have h2' : q ≤ sel.fromYear := by rw [h]; exact h2
    rw [hy, le_antisymm h2' h1]
  · intro s f hf hf0
    have hlast : regLookup (last_year df sel.toYear) s = .ok (some f) := by
      rw [last_year_eq_first_year, ← h]; exact hf
    simp only [stateMetric, hf, hlast]
    show Except.ok (growthOf (some f) (some f)) = Except.ok (Growth.ratio 1)
    simp [growthOf, npDiv, hf0, div_self hf0]

/-- C5 at a concrete input: a one-row table for `MA` in 2020 and the
degenerate selection `[2020, 2020]` give `MA` the exact ratio 1. -/
theorem c5_degenerate_range_witness :
    stateMetric c5Df 2020 2020 "MA" = .ok (.ratio 1) :=
  (c5_degenerate_range c5Df ⟨2020, 2020, ["MA"]⟩ rfl).2 "MA" 1000 rfl (by norm_num)

/-- A successful `mapM` over `Except` pairs inputs with outputs
one-for-one, in order. -/
theorem mapM_ok_forall2 {α β : Type} (g : α → Except String β) :
    ∀ (l : List α) (l' : List β), l.mapM' g = .ok l' →
      List.Forall₂ (fun a b => g a = .ok b) l l' := by
  intro l
  induction l with
  | nil =>
    intro l' h
    cases h
    exact List.Forall₂.nil
  | cons a t ih =>
    intro l' h
    rw [List.mapM'] at h
    cases hga : g a with
    | error e => rw [hga] at h; cases h
    | ok b =>
      rw [hga] at h
      cases hgt : t.mapM' g with
      | error e => rw [hgt] at h; cases h
      | ok bs =>
        rw [hgt] at h
        cases h
        exact List.Forall₂.cons hga (ih bs hgt)

/-- C6, counterexample: the loader does not deduplicate.  A raw source
repeating `(MA, 2020)` loads into a table holding both rows, so the
loaded table has two records for that `(state, year)` pair, not at most
one. -/
theorem c6_duplicates_survive_load :
    get_registration_data dupRows =
      .ok [⟨"MA", some 2020, some 1000⟩, ⟨"MA", some 2020, some 999⟩] ∧
    List.countP (fun r => r.state == "MA" && yearEq r.year 2020)
      [(⟨"MA", some 2020, some 1000⟩ : RegRecord), ⟨"MA", some 2020, some 999⟩] = 2 :=
  ⟨rfl, rfl⟩

/-- C6, amended: the loader performs no deduplication at all — it emits
exactly one record per raw row, in source order, so a `(state, year)`
pair duplicated in the source is duplicated in the table.  The outcome is
still deterministic: each output record is a function of its row. -/
theorem c6_amended_no_dedup (rows : List RawRow) (l : List RegRecord)
    (h : get_registration_data rows = .ok l) :
    List.Forall₂ (fun row rec => loadRow row = .ok rec) rows l := by
  apply mapM_ok_forall2
  rw [List.mapM'_eq_mapM]
  exact h

/-- C6, amended, at a concrete input: the duplicated raw source loads to
the two corresponding records in order. -/
theorem c6_amended_no_dedup_witness :
    List.Forall₂ (fun row rec => loadRow row = .ok rec) dupRows
      [⟨"MA", some 2020, some 1000⟩, ⟨"MA", some 2020, some 999⟩] :=
  c6_amended_no_dedup dupRows
    [⟨"MA", some 2020, some 1000⟩, ⟨"MA", some 2020, some 999⟩] rfl

/-- C7: an empty multiselect gives an empty filtered frame, and the
metric loop runs zero iterations, producing no metrics and no
exception. -/
theorem c7_empty_selection (df : List RegRecord) (sel : FilterSelection)
    (h : sel.states = []) :
    filtered_df df sel = [] ∧ metricLoop df sel = .ok [] := by
  constructor
  · rw [filtered_df]
    apply List.filter_eq_nil_iff.mpr
    intro r hr
    simp [h]
  · rw [metricLoop, h]
    rfl

/-- C7 at a concrete input: the two-row table with nothing selected. -/
theorem c7_empty_selection_witness :
    filtered_df exampleDf ⟨2020, 2024, []⟩ = [] ∧
    metricLoop exampleDf ⟨2020, 2024, []⟩ = .ok [] :=
  c7_empty_selection exampleDf ⟨2020, 2024, []⟩ rfl

/-- C8: the engine never mutates the loaded table — the frame it ends
with is the one it started from — and the filtered frame is a sublist of
the loaded table, so each of its rows occurs there with identical state,
year and total fields. -/
theorem c8_no_mutation (df : List RegRecord) (sel : FilterSelection) :
    (runEngine df sel).1 = df ∧
    (runEngine df sel).2.1.Sublist df ∧
    ∀ r ∈ (runEngine df sel).2.1, r ∈ df :=
  ⟨rfl, List.filter_sublist df, fun _ hr => List.mem_of_mem_filter hr⟩

/-- C9: with duplicate records at the lookup years, both `.iat[0]`
lookups resolve to the first matching record in table order, and the
growth metric is computed from those two records' totals. -/
theorem c9_first_match (df : List RegRecord) (f t : ℚ) (s : String)
    (l1 l2 m1 m2 : List RegRecord) (rf rl : RegRecord)
    (h1 : df = l1 ++ rf :: l2) (hn1 : ∀ x ∈ l1, matchesAt f s x = false)
    (hf : matchesAt f s rf = true)
    (h2 : df = m1 ++ rl :: m2) (hn2 : ∀ x ∈ m1, matchesAt t s x = false)
    (ht : matchesAt t s rl = true) :
    stateMetric df f t s = .ok (growthOf rf.total rl.total) := by
  have e1 := regLookup_first df f s l1 l2 rf h1 hn1 hf
  have e2 : regLookup (last_year df t) s = .ok rl.total := by
    rw [last_year_eq_first_year]
    exact regLookup_first df t s m1 m2 rl h2 hn2 ht
  simp only [stateMetric, e1, e2]
  rfl

/-- C9 at a concrete input: `(MA, 2020)` and `(MA, 2024)` each appear
twice; the metric uses the first occurrence of each (totals 1000 and
2500), ignoring the later duplicates (999 and 2600). -/
theorem c9_first_match_witness :
    stateMetric dupDf 2020 2024 "MA" = .ok (growthOf (some 1000) (some 2500)) :=
  c9_first_match dupDf 2020 2024 "MA"
    [] [⟨"MA", some 2020, some 999⟩, ⟨"MA", some 2024, some 2500⟩, ⟨"MA", some 2024, some 2600⟩]
    [⟨"MA", some 2020, some 1000⟩, ⟨"MA", some 2020, some 999⟩] [⟨"MA", some 2024, some 2600⟩]
    ⟨"MA", some 2020, some 1000⟩ ⟨"MA", some 2024, some 2500⟩
    rfl (by simp) rfl rfl (by decide) rfl

/-- C10: filtering and the metric loop are deterministic — equal loaded
tables and equal selections give equal filtered frames and equal metric
outcomes, including the error and `n/a` cases. -/
theorem c10_deterministic (df1 df2 : List RegRecord) (sel1 sel2 : FilterSelection)
    (h1 : df1 = df2) (h2 : sel1 = sel2) :
    filtered_df df1 sel1 = filtered_df df2 sel2 ∧
    metricLoop df1 sel1 = metricLoop df2 sel2 := by
  rw [h1, h2]
  exact ⟨rfl, rfl⟩

/-- C10 at a concrete input: two runs on the same table and selection. -/
theorem c10_deterministic_witness :
    filtered_df exampleDf ⟨2020, 2024, ["MA"]⟩ = filtered_df exampleDf ⟨2020, 2024, ["MA"]⟩ ∧
    metricLoop exampleDf ⟨2020, 2024, ["MA"]⟩ = metricLoop exampleDf ⟨2020, 2024, ["MA"]⟩ :=
  c10_deterministic exampleDf exampleDf ⟨2020, 2024, ["MA"]⟩ ⟨2020, 2024, ["MA"]⟩ rfl rfl

end USTemps
